import Mathlib

/-!
Shallow embedding of the smile dental-tourism quote backend
(`api/src/auth.js`, `api/src/server.js`, SQL schema) in Lean 4.

Conventions of the embedding:
* The Postgres store is a `List Quote` / `List FileRow`; SQL defaults come
  from the `CREATE TABLE` schema (status defaults to `pending`,
  `created_at`/`updated_at` default to `now()`).
* `now()` is an abstract clock value passed explicitly (a `Nat`).
* Each Express handler becomes a pure function from its inputs (and the
  database state) to an HTTP-like response plus the new database state.
* External collaborators (jsonwebtoken's `verify`/`sign`, zod's e-mail
  regex) are passed in as explicit function parameters or modelled
  abstractly, as the spec treats them as glue.
-/

/-- JavaScript `String.prototype.toLowerCase`, modelled character-wise. -/
def lowercase (s : String) : String :=
  ⟨s.data.map Char.toLower⟩

/-- JavaScript `String.prototype.trim`: strip whitespace from both ends. -/
def jsTrim (s : String) : String :=
  ⟨((s.data.dropWhile Char.isWhitespace).reverse.dropWhile Char.isWhitespace).reverse⟩

/-- Numeric value of a list of decimal digit characters. -/
def digitsVal (cs : List Char) : Nat :=
  cs.foldl (fun a c => a * 10 + (c.toNat - 48)) 0

/-- JavaScript `parseInt(s, 10)`: skip leading whitespace, optional sign,
then the longest decimal-digit run; `none` models `NaN`. -/
def jsParseInt (s : String) : Option Int :=
  let cs := s.data.dropWhile Char.isWhitespace
  match cs with
  | '-' :: rest =>
      let d := rest.takeWhile Char.isDigit
      if d.isEmpty then none else some (-(digitsVal d : Int))
  | '+' :: rest =>
      let d := rest.takeWhile Char.isDigit
      if d.isEmpty then none else some (digitsVal d : Int)
  | _ =>
      let d := cs.takeWhile Char.isDigit
      if d.isEmpty then none else some (digitsVal d : Int)

/-- A row of the `quotes` table (see the SQL schema). Timestamps are
abstract clock values. -/
structure Quote where
  id : Nat
  name : String
  treatment : Option String
  email : String
  phone : String
  whatsapp : Option String
  country : Option String
  urgency : Option String
  notes : Option String
  consent : Bool
  status : String
  created_at : Nat
  updated_at : Nat
deriving Repr, DecidableEq

/-- A row of the `files` table. `path` is the opaque stored filename. -/
structure FileRow where
  id : Nat
  quote_id : Nat
  original_name : String
  mime_type : String
  size : Nat
  path : String
deriving Repr, DecidableEq

/-- The six legal status values (`allowed` in the PATCH handler, and the
`CHECK` constraint of the schema). -/
def allowedStatuses : List String :=
  ["pending", "reviewing", "quoted", "scheduled", "closed", "cancelled"]

/-- Response of the status-update endpoint. -/
inductive StatusResp where
  | badRequest
  | notFound
  | ok (id : Nat) (status : String) (updated_at : Nat)
deriving Repr, DecidableEq

/-- HTTP status code carried by a `StatusResp`. -/
def StatusResp.code : StatusResp → Nat
  | .badRequest => 400
  | .notFound => 404
  | .ok _ _ _ => 200

/-- The `PATCH /api/admin/quotes/:id/status` handler: reject a status
outside the six-value list with 400; otherwise `UPDATE quotes SET
status=$1, updated_at=now() WHERE id=$2 RETURNING id, status, updated_at`,
404 when no row matched. Returns the response and the new table state. -/
def updateStatusHandler (db : List Quote) (now : Nat) (qid : Nat)
    (status : String) : StatusResp × List Quote :=
  if ¬ allowedStatuses.contains status then (.badRequest, db)
  else if db.any (fun r => r.id = qid) then
    (.ok qid status now,
     db.map (fun r => if r.id = qid then { r with status := status, updated_at := now } else r))
  else (.notFound, db)

/-- Modelled from the spec: zod's `z.string().email()` format check is an
external library regex not present in this repository; the spec only
requires "valid email format". We model the two facts the proofs rely on:
a format-valid email is nonempty and contains an `@`. -/
def zodEmailValid (s : String) : Bool :=
  ¬ s.data.isEmpty && s.data.contains '@'

/-- The parsed multipart body of a submission (`QuoteSchema`'s input).
Optional form fields are `Option String`. -/
structure SubmitBody where
  name : String
  treatment : Option String
  email : String
  phone : String
  whatsapp : Option String
  country : Option String
  urgency : Option String
  notes : Option String
  consent : Option String
deriving Repr, DecidableEq

/-- The three legal urgency values of `QuoteSchema`. -/
def urgencyValues : List String :=
  ["Dès que possible", "Dans 1–3 mois", "Plus tard"]

/-- Validation performed by `QuoteSchema.parse`: name at least 2 chars,
e-mail format, phone at least 4 chars, urgency in the closed three-value
enumeration when present, notes at most 5000 chars, consent the literal
string "true" or "false" when present. -/
def quoteSchemaValid (b : SubmitBody) : Bool :=
  2 ≤ b.name.length &&
  zodEmailValid b.email &&
  4 ≤ b.phone.length &&
  (match b.urgency with
   | none => true
   | some u => urgencyValues.contains u) &&
  (match b.notes with
   | none => true
   | some n => n.length ≤ 5000) &&
  (match b.consent with
   | none => true
   | some c => c = "true" || c = "false")

/-- A file part of the multipart request as multer sees it: original
client filename and byte size (the stored path is random, irrelevant to
the claims). -/
structure UploadFile where
  originalname : String
  size : Nat
deriving Repr, DecidableEq

/-- multer limits: `fileSize: 10 * 1024 * 1024` bytes per file. -/
def fileSizeLimit : Nat := 10 * 1024 * 1024

/-- multer limits: `files: 10` parts maximum. -/
def fileCountLimit : Nat := 10

/-- multer accepts the request iff no file part exceeds 10 MiB and there
are at most 10 file parts; otherwise it raises a `MulterError` before the
route handler runs. -/
def multerAccepts (files : List UploadFile) : Bool :=
  files.length ≤ fileCountLimit && files.all (fun f => f.size ≤ fileSizeLimit)

/-- Response of the submit endpoint. `ok` carries the returned quote id.
`serverError` is the catch-all 500 (also produced by the global error
guard for multer limit errors). -/
inductive SubmitResp where
  | ok (id : Nat)
  | invalidPayload
  | serverError
deriving Repr, DecidableEq

/-- HTTP status code carried by a `SubmitResp`. -/
def SubmitResp.code : SubmitResp → Nat
  | .ok _ => 200
  | .invalidPayload => 400
  | .serverError => 500

/-- The `quotes` row inserted by a valid submission: the validated body
columns, plus the schema defaults `status = 'pending'`,
`created_at = now()`, `updated_at = now()` for the omitted columns. The
urgency column is part of the insert only when the capability flag
`hasUrgency` is set. -/
def submitRow (now nextId : Nat) (hasUrgency : Bool) (b : SubmitBody) :
    Quote :=
  { id := nextId
    name := b.name
    treatment := b.treatment
    email := b.email
    phone := b.phone
    whatsapp := b.whatsapp
    country := b.country
    urgency := if hasUrgency then b.urgency else none
    notes := b.notes
    consent := b.consent = some "true"
    status := "pending"
    created_at := now
    updated_at := now }

/-- The `POST /api/quotes/multipart` route handler body (after multer):
validate with `QuoteSchema`, insert one `quotes` row (status, timestamps
from the schema defaults: `pending`, `now()`, `now()`), then one `files`
row per uploaded file. `hasUrgency` is the cached schema-capability flag:
when false the urgency column is not in the insert's column set. -/
def submitHandler (db : List Quote) (fdb : List FileRow) (now : Nat)
    (nextId : Nat) (nextFileId : Nat) (hasUrgency : Bool)
    (b : SubmitBody) (files : List UploadFile) :
    SubmitResp × List Quote × List FileRow :=
  if quoteSchemaValid b then
    let row : Quote := submitRow now nextId hasUrgency b
    let frows := files.enum.map (fun p =>
      { id := nextFileId + p.1
        quote_id := nextId
        original_name := p.2.originalname
        mime_type := ""
        size := p.2.size
        path := "" : FileRow })
    (.ok nextId, db ++ [row], fdb ++ frows)
  else (.invalidPayload, db, fdb)

/-- The whole `POST /api/quotes/multipart` pipeline: multer runs first;
a limit violation is an error that skips the handler and reaches the
global error guard, which answers 500; otherwise the handler body runs. -/
def multipartPipeline (db : List Quote) (fdb : List FileRow) (now : Nat)
    (nextId : Nat) (nextFileId : Nat) (hasUrgency : Bool)
    (b : SubmitBody) (files : List UploadFile) :
    SubmitResp × List Quote × List FileRow :=
  if multerAccepts files then
    submitHandler db fdb now nextId nextFileId hasUrgency b files
  else (.serverError, db, fdb)

/-- Effective limit of the list endpoint:
`Math.max(1, Math.min(200, parseInt(req.query.limit, 10) || 20))`.
`none` models an absent query parameter; `parseInt` of an absent value is
`NaN`, and both `NaN` and `0` are falsy, so `|| 20` replaces them. -/
def effLimit (s : Option String) : Int :=
  let p := s.bind jsParseInt
  let v : Int := match p with
    | some n => if n = 0 then 20 else n
    | none => 20
  max 1 (min 200 v)

/-- Effective offset of the list endpoint:
`Math.max(0, parseInt(req.query.offset, 10) || 0)`. -/
def effOffset (s : Option String) : Int :=
  let p := s.bind jsParseInt
  let v : Int := match p with
    | some n => n
    | none => 0
  max 0 v

/-- Status filter of the list endpoint: a string query value inside the
six-value set is kept, anything else (absent, non-string, or illegal
value) becomes no filter. -/
def statusFilterOf (qs : Option String) : Option String :=
  match qs with
  | some s => if allowedStatuses.contains s then some s else none
  | none => none

/-- Postgres `LIKE` matching on character lists: `%` matches any sequence,
`_` any single character, backslash escapes the next pattern character; a
pattern ending in a bare backslash is an error in Postgres, modelled as
never matching. -/
def likeMatch : List Char → List Char → Bool
  | [], s => s.isEmpty
  | '%' :: ps, s => s.tails.any (fun t => likeMatch ps t)
  | '\\' :: c :: ps, s =>
      (match s with
       | [] => false
       | d :: s2 => d = c && likeMatch ps s2)
  | ['\\'], _ => false
  | '_' :: ps, s =>
      (match s with
       | [] => false
       | _ :: s2 => likeMatch ps s2)
  | c :: ps, s =>
      (match s with
       | [] => false
       | d :: s2 => d = c && likeMatch ps s2)

/-- A column value matches the free-text query `q` when the pattern
`'%' ++ q ++ '%'` `LIKE`-matches the lowercased column. -/
def colMatches (q : String) (col : String) : Bool :=
  likeMatch ('%' :: (q.data ++ ['%'])) (lowercase col).data

/-- The `WHERE` predicate of `GET /api/admin/quotes` on one row: the
status condition when a legal status filter is present, and the
three-column `LIKE` disjunction when the trimmed lowercased query is
nonempty (`LOWER(name)`, `LOWER(email)`, `LOWER(COALESCE(notes,''))`). -/
def listPred (status : Option String) (q : String) (r : Quote) : Bool :=
  (match status with
   | some s => r.status = s
   | none => true) &&
  (q.data.isEmpty ||
    (colMatches q r.name || colMatches q r.email ||
     colMatches q (r.notes.getD "")))

/-- Insertion into a list kept sorted by descending `created_at`. -/
def insertDesc (r : Quote) : List Quote → List Quote
  | [] => [r]
  | x :: xs =>
      if x.created_at ≤ r.created_at then r :: x :: xs
      else x :: insertDesc r xs

/-- Sort rows newest-first (`ORDER BY created_at DESC`). -/
def sortDesc (l : List Quote) : List Quote :=
  l.foldr insertDesc []

/-- Rows selected by `GET /api/admin/quotes`: filter by the `WHERE`
clause, order newest-first, then apply `OFFSET` and `LIMIT` (both already
clamped to nonnegative values, so `Int.toNat` is faithful). `qstatus` and
`qq` are the raw query parameters. -/
def listSelect (db : List Quote) (qstatus : Option String)
    (qq : Option String) (qlimit : Option String)
    (qoffset : Option String) : List Quote :=
  let status := statusFilterOf qstatus
  let q := lowercase (jsTrim (qq.getD ""))
  let filtered := db.filter (listPred status q)
  ((sortDesc filtered).drop (effOffset qoffset).toNat).take (effLimit qlimit).toNat

/-- Response of `GET /api/admin/files/:id`: either a 404 JSON error with
its message, or a 200 stream of the file at the stored path. -/
inductive FileResp where
  | notFoundMsg (msg : String)
  | stream (path : String)
deriving Repr, DecidableEq

/-- HTTP status code carried by a `FileResp`. -/
def FileResp.code : FileResp → Nat
  | .notFoundMsg _ => 404
  | .stream _ => 200

/-- The `GET /api/admin/files/:id` handler body (after the lenient
guard): look up the `files` row; no row gives 404 `Not found`; a row
whose stored path is absent on disk (`fs.existsSync` false) gives 404
`Missing file`; otherwise the file is streamed. `disk` is the set of
paths present in the upload directory. -/
def fileDownloadHandler (fdb : List FileRow) (disk : List String)
    (fid : Nat) : FileResp :=
  match fdb.find? (fun f => f.id = fid) with
  | none => .notFoundMsg "Not found"
  | some f =>
      if disk.contains f.path then .stream f.path
      else .notFoundMsg "Missing file"

/-- The environment-configured admin identity (`ADMIN_EMAIL`,
`ADMIN_PASSWORD`; empty string when unset). -/
structure AdminConfig where
  adminEmail : String
  adminPassword : String
deriving Repr, DecidableEq

/-- A decoded JWT payload; only the fields the code reads. -/
structure Payload where
  sub : String
  role : String
  email : String
deriving Repr, DecidableEq

/-- The `login` function of `auth.js`: refuse when the admin identity is
unconfigured, when either argument is falsy, when the e-mail does not
match case-insensitively, or when the password does not match exactly;
otherwise produce the fixed admin payload (which the code signs into a
token expiring in 7 days). -/
def login (cfg : AdminConfig) (email password : String) : Option Payload :=
  if cfg.adminEmail = "" ∨ cfg.adminPassword = "" then none
  else if email = "" ∨ password = "" then none
  else if lowercase email ≠ lowercase cfg.adminEmail then none
  else if password ≠ cfg.adminPassword then none
  else some ⟨"admin", "admin", cfg.adminEmail⟩

/-- Response of `POST /api/auth/login`. `ok` carries the payload that is
signed into the returned token. -/
inductive LoginResp where
  | ok (p : Payload)
  | badCredentials
  | invalidPayload
deriving Repr, DecidableEq

/-- HTTP status code carried by a `LoginResp`. -/
def LoginResp.code : LoginResp → Nat
  | .ok _ => 200
  | .badCredentials => 401
  | .invalidPayload => 400

/-- The `POST /api/auth/login` handler: `LoginSchema` (e-mail format,
password at least one char), then `login`; a null result is the uniform
401 `Bad credentials`. -/
def loginHandler (cfg : AdminConfig) (email password : String) : LoginResp :=
  if zodEmailValid email && 1 ≤ password.length then
    match login cfg email password with
    | some p => .ok p
    | none => .badCredentials
  else .invalidPayload

/-- The authorization-relevant part of an incoming request: the
`Authorization` header value (empty when absent) and the `token` query
parameter (`none` when absent or not a string). -/
structure AuthReq where
  authHeader : String
  queryToken : Option String
deriving Repr, DecidableEq

/-- `extractBearer`: the regex `^Bearer (.+)$` against the Authorization
header — the header must open with `Bearer ` followed by at least one
character; the captured group, or the empty string when there is no
match. -/
def extractBearer (req : AuthReq) : String :=
  if req.authHeader.data.take 7 = "Bearer ".data ∧
      7 < req.authHeader.data.length then
    ⟨req.authHeader.data.drop 7⟩
  else ""

/-- `verifyAdmin`: a falsy token is rejected; otherwise `jwt.verify`
(passed in as the abstract verifier `jv`, `none` modelling a thrown
error) must yield a payload whose role claim is `admin`. -/
def verifyAdmin (jv : String → Option Payload) (token : String) :
    Option Payload :=
  if token = "" then none
  else match jv token with
    | some p => if p.role = "admin" then some p else none
    | none => none

/-- Outcome of an auth guard: proceed with the verified payload, or
answer 401 `Unauthorized`. -/
inductive GuardResult where
  | ok (p : Payload)
  | unauthorized
deriving Repr, DecidableEq

/-- The strict guard `requireAdmin`: only the Bearer header is consulted. -/
def requireAdmin (jv : String → Option Payload) (req : AuthReq) :
    GuardResult :=
  match verifyAdmin jv (extractBearer req) with
  | some p => .ok p
  | none => .unauthorized

/-- The lenient guard `requireAdminAllowQuery`: the Bearer header first;
only when it yields no token (empty string) is a string `token` query
parameter used instead. -/
def requireAdminAllowQuery (jv : String → Option Payload) (req : AuthReq) :
    GuardResult :=
  let t0 := extractBearer req
  let token :=
    if t0 = "" then
      match req.queryToken with
      | some t => t
      | none => t0
    else t0
  match verifyAdmin jv token with
  | some p => .ok p
  | none => .unauthorized

/-- C1: a status-update call whose target status string is not one of the
six legal values answers a 400-class client error (exactly 400) and the
quotes table is left unchanged, so no request's status or update
timestamp is mutated. -/
theorem C1_invalid_status_rejected_no_mutation (db : List Quote)
    (now qid : Nat) (s : String) (h : s ∉ allowedStatuses) :
    (updateStatusHandler db now qid s).1 = .badRequest ∧
    400 ≤ (updateStatusHandler db now qid s).1.code ∧
    (updateStatusHandler db now qid s).1.code < 500 ∧
    (updateStatusHandler db now qid s).2 = db := by
  simp [updateStatusHandler, h, StatusResp.code]

/-- C1 witness: the status string `weird` is rejected with 400 and the
one-row table is unchanged. -/
theorem C1_witness :
    (updateStatusHandler [] 0 1 "weird").1 = .badRequest ∧
    400 ≤ (updateStatusHandler [] 0 1 "weird").1.code ∧
    (updateStatusHandler [] 0 1 "weird").1.code < 500 ∧
    (updateStatusHandler [] 0 1 "weird").2 = [] :=
  C1_invalid_status_rejected_no_mutation [] 0 1 "weird" (by decide)

/-- C2: a status-update call with a legal target status behaves as
follows, under the monotone-clock assumption that the call's `now()` is
later than every stored update timestamp. When some row has the requested
id, the response is 200 carrying that id, the new status and the new
timestamp; afterwards every row with that id has exactly the input status
and the new timestamp, and the old timestamp of every such row was
strictly smaller (the update timestamp strictly increases), with no
restriction on the previous status. When no row has the id, the response
is the 404 not-found error and the table is unchanged. -/
theorem C2_valid_status_update (db : List Quote) (now qid : Nat)
    (s : String) (hs : s ∈ allowedStatuses)
    (hclock : ∀ r ∈ db, r.updated_at < now) :
    ((∃ r ∈ db, r.id = qid) →
      (updateStatusHandler db now qid s).1 = .ok qid s now ∧
      (∀ r2 ∈ (updateStatusHandler db now qid s).2,
        r2.id = qid → r2.status = s ∧ r2.updated_at = now) ∧
      (∀ r ∈ db, r.id = qid → r.updated_at < now)) ∧
    ((¬ ∃ r ∈ db, r.id = qid) →
      (updateStatusHandler db now qid s).1 = .notFound ∧
      (updateStatusHandler db now qid s).2 = db) := by
  constructor
  · intro hex
    have hany : (db.any fun r => r.id = qid) = true := by
      rcases hex with ⟨r, hr, hid⟩
      exact List.any_eq_true.mpr ⟨r, hr, by simpa using hid⟩
    refine ⟨by simp [updateStatusHandler, hs, hany], ?_, ?_⟩
    · intro r2 hr2 hid2
      have hmem : r2 ∈ db.map (fun r =>
          if r.id = qid then { r with status := s, updated_at := now } else r) := by
        simpa [updateStatusHandler, hs, hany] using hr2
      rcases List.mem_map.mp hmem with ⟨r, hr, hrr⟩
      by_cases hcase : r.id = qid
      · simp [hcase] at hrr
        simp [← hrr]
      · simp [hcase] at hrr
        rw [← hrr] at hid2
        exact absurd hid2 hcase
    · intro r hr _
      exact hclock r hr
  · intro hnone
    have hany : (db.any fun r => r.id = qid) = false := by
      rw [List.any_eq_false]
      intro r hr
      simpa using fun hid => hnone ⟨r, hr, hid⟩
    simp [updateStatusHandler, hs, hany]

/-- A concrete sample row used by witnesses. -/
def sampleQuote : Quote :=
  { id := 1, name := "n", treatment := none, email := "e", phone := "p",
    whatsapp := none, country := none, urgency := none, notes := none,
    consent := false, status := "pending", created_at := 5, updated_at := 5 }

/-- C2 witness: on the one-row table `[sampleQuote]` (id 1, updated at
time 5), updating to `closed` at time 9 answers 200 with the new status
and timestamp, the row is rewritten accordingly, and the old timestamp
was strictly smaller. -/
theorem C2_witness :
    ((∃ r ∈ [sampleQuote], r.id = 1) →
      (updateStatusHandler [sampleQuote] 9 1 "closed").1 = .ok 1 "closed" 9 ∧
      (∀ r2 ∈ (updateStatusHandler [sampleQuote] 9 1 "closed").2,
        r2.id = 1 → r2.status = "closed" ∧ r2.updated_at = 9) ∧
      (∀ r ∈ [sampleQuote], r.id = 1 → r.updated_at < 9)) ∧
    ((¬ ∃ r ∈ [sampleQuote], r.id = 1) →
      (updateStatusHandler [sampleQuote] 9 1 "closed").1 = .notFound ∧
      (updateStatusHandler [sampleQuote] 9 1 "closed").2 = [sampleQuote]) :=
  C2_valid_status_update [sampleQuote] 9 1 "closed" (by decide)
    (by intro r hr; simp at hr; simp [hr, sampleQuote])

/-- C3: a valid submission (multer accepts the file parts and the body
passes `QuoteSchema`) answers 200 with the id of the newly inserted row,
and every row of the new table carrying that id — the freshness
hypothesis makes it exactly the new row — has status `pending` and equal
creation and update timestamps. -/
theorem C3_new_request_pending_equal_timestamps (db : List Quote)
    (fdb : List FileRow) (now nextId nextFileId : Nat) (hu : Bool)
    (b : SubmitBody) (files : List UploadFile)
    (hm : multerAccepts files = true)
    (hb : quoteSchemaValid b = true)
    (hfresh : ∀ r ∈ db, r.id ≠ nextId) :
    (multipartPipeline db fdb now nextId nextFileId hu b files).1 =
      .ok nextId ∧
    ∀ r ∈ (multipartPipeline db fdb now nextId nextFileId hu b files).2.1,
      r.id = nextId →
        r.status = "pending" ∧ r.created_at = r.updated_at := by
  refine ⟨by simp [multipartPipeline, hm, submitHandler, hb], ?_⟩
  intro r hr hid
  have hmem : r ∈ db ++ [submitRow now nextId hu b] := by
    simpa [multipartPipeline, hm, submitHandler, hb] using hr
  rcases List.mem_append.mp hmem with hold | hnew
  · exact absurd hid (hfresh r hold)
  · simp at hnew
    simp [hnew, submitRow]

/-- C3 witness: the example submission (name `Jane Doe`, e-mail
`jane@example.com`, phone `123456`, no files) on an empty table creates
row id 1 with status `pending` and equal timestamps. -/
theorem C3_witness :
    (multipartPipeline [] [] 7 1 1 false
      { name := "Jane Doe", treatment := none, email := "jane@example.com",
        phone := "123456", whatsapp := none, country := none,
        urgency := none, notes := none, consent := none } []).1 = .ok 1 ∧
    ∀ r ∈ (multipartPipeline [] [] 7 1 1 false
      { name := "Jane Doe", treatment := none, email := "jane@example.com",
        phone := "123456", whatsapp := none, country := none,
        urgency := none, notes := none, consent := none } []).2.1,
      r.id = 1 → r.status = "pending" ∧ r.created_at = r.updated_at :=
  C3_new_request_pending_equal_timestamps [] [] 7 1 1 false
    { name := "Jane Doe", treatment := none, email := "jane@example.com",
      phone := "123456", whatsapp := none, country := none,
      urgency := none, notes := none, consent := none } []
    (by decide) (by decide) (by simp)

/-- A valid example submission body (used by concrete instances). -/
def janeBody : SubmitBody :=
  { name := "Jane Doe", treatment := none, email := "jane@example.com",
    phone := "123456", whatsapp := none, country := none,
    urgency := none, notes := none, consent := none }

/-- C4 counterexample: a submission with a single 15 MiB file is NOT
answered with a 400-class client error — the multer limit error reaches
the global error guard, which answers 500 — although no request row is
created. -/
theorem C4_counterexample :
    (multipartPipeline [] [] 0 1 1 false janeBody
      [{ originalname := "big.jpg", size := 15 * 1024 * 1024 }]).1 =
      .serverError ∧
    (multipartPipeline [] [] 0 1 1 false janeBody
      [{ originalname := "big.jpg", size := 15 * 1024 * 1024 }]).1.code =
      500 ∧
    ¬ ((multipartPipeline [] [] 0 1 1 false janeBody
      [{ originalname := "big.jpg", size := 15 * 1024 * 1024 }]).1.code
      < 500) ∧
    (multipartPipeline [] [] 0 1 1 false janeBody
      [{ originalname := "big.jpg", size := 15 * 1024 * 1024 }]).2.1 =
      [] := by
  refine ⟨by decide, by decide, by decide, by decide⟩

/-- C4 amended: a submission with a file part over the 10 MiB single-file
limit, or with more than 10 file parts, is rejected as a whole — but with
the 500 server error produced by the global error guard, not a 4xx client
error — and no request row and no file row is created. -/
theorem C4_amended_limit_rejected_as_500 (db : List Quote)
    (fdb : List FileRow) (now nextId nextFileId : Nat) (hu : Bool)
    (b : SubmitBody) (files : List UploadFile)
    (h : (∃ f ∈ files, fileSizeLimit < f.size) ∨
      fileCountLimit < files.length) :
    (multipartPipeline db fdb now nextId nextFileId hu b files).1 =
      .serverError ∧
    (multipartPipeline db fdb now nextId nextFileId hu b files).1.code =
      500 ∧
    (multipartPipeline db fdb now nextId nextFileId hu b files).2.1 = db ∧
    (multipartPipeline db fdb now nextId nextFileId hu b files).2.2 =
      fdb := by
  have hacc : multerAccepts files = false := by
    apply Bool.eq_false_iff.mpr
    intro htrue
    rw [multerAccepts, Bool.and_eq_true] at htrue
    obtain ⟨h1, h2⟩ := htrue
    rcases h with ⟨f, hf, hsz⟩ | hlen
    · have hb := List.all_eq_true.mp h2 f hf
      simp at hb
      omega
    · simp at h1
      omega
  simp [multipartPipeline, hacc, SubmitResp.code]

/-- C4 amended witness: the concrete 15 MiB submission instantiates the
amended claim. -/
theorem C4_amended_witness :
    (multipartPipeline [] [] 0 1 1 false janeBody
      [{ originalname := "big.jpg", size := 15 * 1024 * 1024 }]).1 =
      .serverError ∧
    (multipartPipeline [] [] 0 1 1 false janeBody
      [{ originalname := "big.jpg", size := 15 * 1024 * 1024 }]).1.code =
      500 ∧
    (multipartPipeline [] [] 0 1 1 false janeBody
      [{ originalname := "big.jpg", size := 15 * 1024 * 1024 }]).2.1 =
      [] ∧
    (multipartPipeline [] [] 0 1 1 false janeBody
      [{ originalname := "big.jpg", size := 15 * 1024 * 1024 }]).2.2 =
      [] :=
  C4_amended_limit_rejected_as_500 [] [] 0 1 1 false janeBody
    [{ originalname := "big.jpg", size := 15 * 1024 * 1024 }]
    (Or.inl ⟨{ originalname := "big.jpg", size := 15 * 1024 * 1024 },
      by decide, by decide⟩)

/-- C5 counterexample: requesting `limit=0` does NOT behave as `limit=1`.
`parseInt("0", 10)` is `0`, which is falsy, so `|| 20` substitutes the
default: the effective limit is 20. -/
theorem C5_counterexample :
    effLimit (some "0") = 20 ∧ effLimit (some "0") ≠ 1 := by
  refine ⟨by decide, by decide⟩

/-- C5 amended: the effective limit always lies in [1,200] with default
20 when the parameter is absent; the effective offset is always at least
0 with default 0; a negative offset behaves as offset 0; but a limit
parameter parsing to 0 behaves as the default 20 (0 is falsy in
JavaScript), not as 1. -/
theorem C5_amended_clamping (ql qo : Option String) :
    1 ≤ effLimit ql ∧ effLimit ql ≤ 200 ∧
    effLimit none = 20 ∧
    0 ≤ effOffset qo ∧ effOffset none = 0 ∧
    (∀ s n, jsParseInt s = some n → n < 0 → effOffset (some s) = 0) ∧
    (∀ s, jsParseInt s = some 0 → effLimit (some s) = 20) := by
  refine ⟨?_, ?_, by decide, ?_, by decide, ?_, ?_⟩
  · unfold effLimit
    cases ql.bind jsParseInt with
    | none => simp
    | some n =>
        by_cases h0 : n = 0 <;> simp [h0]
  · unfold effLimit
    cases ql.bind jsParseInt with
    | none => simp
    | some n =>
        by_cases h0 : n = 0 <;> simp [h0]
  · unfold effOffset
    cases qo.bind jsParseInt with
    | none => simp
    | some n => simp
  · intro s n hp hneg
    unfold effOffset
    simp [hp]
    omega
  · intro s hp
    unfold effLimit
    simp [hp]

/-- C5 amended witness: concrete inputs. `limit="0"` gives 20,
`offset="-5"` gives 0, absent parameters give the defaults, and
`limit="7"` is in range. -/
theorem C5_amended_witness :
    (1 ≤ effLimit (some "7") ∧ effLimit (some "7") ≤ 200 ∧
      effLimit none = 20 ∧
      0 ≤ effOffset (some "-5") ∧ effOffset none = 0 ∧
      (∀ s n, jsParseInt s = some n → n < 0 → effOffset (some s) = 0) ∧
      (∀ s, jsParseInt s = some 0 → effLimit (some s) = 20)) ∧
    jsParseInt "-5" = some (-5) ∧ effOffset (some "-5") = 0 ∧
    jsParseInt "0" = some 0 ∧ effLimit (some "0") = 20 :=
  ⟨C5_amended_clamping (some "7") (some "-5"),
   by decide,
   (C5_amended_clamping (some "7") (some "-5")).2.2.2.2.2.1 "-5" (-5)
     (by decide) (by decide),
   by decide,
   (C5_amended_clamping (some "7") (some "-5")).2.2.2.2.2.2 "0"
     (by decide)⟩

/-- A concrete sample attachment row used by concrete instances. -/
def sampleFileRow : FileRow :=
  { id := 1, quote_id := 1, original_name := "scan.png",
    mime_type := "image/png", size := 4, path := "u1.png" }

/-- C6 counterexample: the two not-found sub-cases do NOT share a uniform
message. An unknown attachment id answers 404 `Not found`, while a known
row whose file is absent on disk answers 404 `Missing file`; the two
responses differ, so the caller can distinguish the causes. -/
theorem C6_counterexample :
    fileDownloadHandler [] [] 1 = .notFoundMsg "Not found" ∧
    fileDownloadHandler [sampleFileRow] [] 1 =
      .notFoundMsg "Missing file" ∧
    fileDownloadHandler [] [] 1 ≠ fileDownloadHandler [sampleFileRow] [] 1 := by
  refine ⟨by decide, by decide, by decide⟩

/-- C6 amended: both failure sub-cases of file retrieval answer HTTP 404
— no metadata row gives message `Not found`, a metadata row whose stored
path is absent on disk gives message `Missing file` — so the status code
is uniform but the messages differ and the two causes are distinguishable
to the caller. -/
theorem C6_amended_two_distinct_404s (fdb : List FileRow)
    (disk : List String) (fid : Nat) :
    (fdb.find? (fun f => f.id = fid) = none →
      fileDownloadHandler fdb disk fid = .notFoundMsg "Not found") ∧
    (∀ f, fdb.find? (fun f => f.id = fid) = some f →
      disk.contains f.path = false →
      fileDownloadHandler fdb disk fid = .notFoundMsg "Missing file") ∧
    (∀ msg, fileDownloadHandler fdb disk fid = .notFoundMsg msg →
      (fileDownloadHandler fdb disk fid).code = 404) := by
  refine ⟨?_, ?_, ?_⟩
  · intro h
    simp [fileDownloadHandler, h]
  · intro f hf hd
    simp [fileDownloadHandler, hf, hd]
    simpa using hd
  · intro msg h
    rw [h]
    rfl

/-- C6 amended witness: concrete instances of both 404 sub-cases. -/
theorem C6_amended_witness :
    fileDownloadHandler [] [] 1 = .notFoundMsg "Not found" ∧
    fileDownloadHandler [sampleFileRow] [] 1 =
      .notFoundMsg "Missing file" ∧
    (fileDownloadHandler [] [] 1).code = 404 ∧
    (fileDownloadHandler [sampleFileRow] [] 1).code = 404 :=
  ⟨(C6_amended_two_distinct_404s [] [] 1).1 (by decide),
   (C6_amended_two_distinct_404s [sampleFileRow] [] 1).2.1 sampleFileRow
     (by decide) (by decide),
   (C6_amended_two_distinct_404s [] [] 1).2.2 "Not found"
     ((C6_amended_two_distinct_404s [] [] 1).1 (by decide)),
   (C6_amended_two_distinct_404s [sampleFileRow] [] 1).2.2 "Missing file"
     ((C6_amended_two_distinct_404s [sampleFileRow] [] 1).2.1 sampleFileRow
       (by decide) (by decide))⟩

/-- Helper: a string is the empty literal exactly when its character list
is empty. -/
theorem string_eq_empty_iff (s : String) : s = "" ↔ s.data = [] := by
  constructor
  · intro h; rw [h]
  · intro h
    cases s with
    | mk l => simp at h; subst h; rfl

/-- Helper: lowercasing preserves emptiness. -/
theorem lowercase_eq_empty_iff (s : String) : lowercase s = "" ↔ s = "" := by
  constructor
  · intro h
    have hd : (lowercase s).data = [] := by
      rw [h]
    simp [lowercase] at hd
    exact (string_eq_empty_iff s).mpr hd
  · intro h
    subst h
    rfl

/-- Helper: a zod-format-valid e-mail is nonempty. -/
theorem zodEmailValid_ne_empty {s : String} (h : zodEmailValid s = true) :
    s ≠ "" := by
  intro h0
  subst h0
  simp [zodEmailValid] at h

/-- Helper: with nonempty inputs (as `LoginSchema` guarantees), `login`
succeeds exactly when the e-mail matches the configured admin e-mail
case-insensitively and the password matches exactly. -/
theorem login_some_iff (cfg : AdminConfig) (e p : String)
    (he : e ≠ "") (hp : p ≠ "") :
    (∃ pl, login cfg e p = some pl) ↔
      (lowercase e = lowercase cfg.adminEmail ∧ p = cfg.adminPassword) := by
  constructor
  · rintro ⟨pl, h⟩
    unfold login at h
    by_cases h1 : cfg.adminEmail = "" ∨ cfg.adminPassword = ""
    · simp [h1] at h
    · rw [if_neg h1] at h
      rw [if_neg (show ¬ (e = "" ∨ p = "") by push_neg; exact ⟨he, hp⟩)] at h
      by_cases h3 : lowercase e ≠ lowercase cfg.adminEmail
      · simp [h3] at h
      · push_neg at h3
        rw [if_neg (by simp [h3])] at h
        by_cases h4 : p ≠ cfg.adminPassword
        · simp [h4] at h
        · push_neg at h4
          exact ⟨h3, h4⟩
  · rintro ⟨hmail, hpw⟩
    have hae : cfg.adminEmail ≠ "" := by
      intro h0
      apply he
      apply (lowercase_eq_empty_iff e).mp
      rw [hmail, h0]
      rfl
    have hap : cfg.adminPassword ≠ "" := by
      rw [← hpw]; exact hp
    refine ⟨⟨"admin", "admin", cfg.adminEmail⟩, ?_⟩
    unfold login
    rw [if_neg (show ¬ (cfg.adminEmail = "" ∨ cfg.adminPassword = "") by
        push_neg; exact ⟨hae, hap⟩),
      if_neg (show ¬ (e = "" ∨ p = "") by push_neg; exact ⟨he, hp⟩),
      if_neg (by simp [hmail]), if_neg (by simp [hpw])]

/-- C7: for schema-valid login attempts, (a) the handler succeeds exactly
when the supplied e-mail matches the configured admin e-mail
case-insensitively and the password matches exactly; (b) any failing
attempt gets the uniform 401 `Bad credentials` response; (c) any two
failing attempts — wrong e-mail, wrong password, or unconfigured admin
identity — receive identical responses. -/
theorem C7_login_exact_match_uniform_failure (cfg : AdminConfig)
    (e p e2 p2 : String)
    (he : zodEmailValid e = true) (hp : 1 ≤ p.length)
    (he2 : zodEmailValid e2 = true) (hp2 : 1 ≤ p2.length) :
    ((∃ pl, loginHandler cfg e p = .ok pl) ↔
      (lowercase e = lowercase cfg.adminEmail ∧ p = cfg.adminPassword)) ∧
    ((∀ pl, loginHandler cfg e p ≠ .ok pl) →
      loginHandler cfg e p = .badCredentials ∧
      (loginHandler cfg e p).code = 401) ∧
    ((∀ pl, loginHandler cfg e p ≠ .ok pl) →
      (∀ pl, loginHandler cfg e2 p2 ≠ .ok pl) →
      loginHandler cfg e p = loginHandler cfg e2 p2) := by
  have hkey : ∀ a b : String, zodEmailValid a = true → 1 ≤ b.length →
      (∀ pl, loginHandler cfg a b ≠ .ok pl) →
      loginHandler cfg a b = .badCredentials := by
    intro a b ha hb hno
    unfold loginHandler
    rw [if_pos (by simp [ha, hb])]
    cases hcase : login cfg a b with
    | some pl =>
        exfalso
        apply hno pl
        unfold loginHandler
        rw [if_pos (by simp [ha, hb]), hcase]
    | none => rfl
  have hpne : p ≠ "" := by
    intro h0
    rw [h0] at hp
    simp [String.length] at hp
  refine ⟨?_, ?_, ?_⟩
  · constructor
    · rintro ⟨pl, h⟩
      unfold loginHandler at h
      rw [if_pos (by simp [he, hp])] at h
      cases hcase : login cfg e p with
      | some pl2 =>
          exact (login_some_iff cfg e p (zodEmailValid_ne_empty he)
            hpne).mp ⟨pl2, hcase⟩
      | none =>
          rw [hcase] at h
          cases h
    · intro hmatch
      obtain ⟨pl, hL⟩ := (login_some_iff cfg e p (zodEmailValid_ne_empty he)
        hpne).mpr hmatch
      refine ⟨pl, ?_⟩
      unfold loginHandler
      rw [if_pos (by simp [he, hp]), hL]
  · intro hno
    refine ⟨hkey e p he hp hno, ?_⟩
    rw [hkey e p he hp hno]
    rfl
  · intro hno hno2
    rw [hkey e p he hp hno, hkey e2 p2 he2 hp2 hno2]

/-- C7 witness: with admin identity `A@b.c` / `pw`, the attempt
`a@B.C` / `pw` succeeds (case-insensitive e-mail, exact password), and
the failing attempts are uniform 401s. -/
theorem C7_witness :
    (((∃ pl, loginHandler ⟨"A@b.c", "pw"⟩ "a@B.C" "pw" = .ok pl) ↔
      (lowercase "a@B.C" = lowercase "A@b.c" ∧ "pw" = "pw")) ∧
    ((∀ pl, loginHandler ⟨"A@b.c", "pw"⟩ "a@B.C" "pw" ≠ .ok pl) →
      loginHandler ⟨"A@b.c", "pw"⟩ "a@B.C" "pw" = .badCredentials ∧
      (loginHandler ⟨"A@b.c", "pw"⟩ "a@B.C" "pw").code = 401) ∧
    ((∀ pl, loginHandler ⟨"A@b.c", "pw"⟩ "a@B.C" "pw" ≠ .ok pl) →
      (∀ pl, loginHandler ⟨"A@b.c", "pw"⟩ "x@y.z" "nope" ≠ .ok pl) →
      loginHandler ⟨"A@b.c", "pw"⟩ "a@B.C" "pw" =
        loginHandler ⟨"A@b.c", "pw"⟩ "x@y.z" "nope")) :=
  C7_login_exact_match_uniform_failure ⟨"A@b.c", "pw"⟩ "a@B.C" "pw"
    "x@y.z" "nope" (by decide) (by decide) (by decide) (by decide)

/-- A concrete admin payload for witnesses. -/
def samplePayload : Payload :=
  { sub := "admin", role := "admin", email := "a@b.c" }

/-- A concrete JWT verifier for witnesses: exactly the token `tok`
verifies, to the admin payload. -/
def sampleVerifier : String → Option Payload :=
  fun s => if s = "tok" then some samplePayload else none

/-- C8: a request carrying a valid admin token (one the verifier accepts
with role `admin`) only in the `token` query parameter, with no
Authorization header, is accepted by the lenient guard and answered 401
by the strict guard. -/
theorem C8_query_token_lenient_only (jv : String → Option Payload)
    (t : String) (pl : Payload) (hv : jv t = some pl)
    (hrole : pl.role = "admin") (hne : t ≠ "") :
    requireAdminAllowQuery jv { authHeader := "", queryToken := some t } =
      .ok pl ∧
    requireAdmin jv { authHeader := "", queryToken := some t } =
      .unauthorized := by
  have hbear : extractBearer { authHeader := "", queryToken := some t } = "" := by
    simp [extractBearer]
  constructor
  · simp [requireAdminAllowQuery, hbear, verifyAdmin, hne, hv, hrole]
  · simp [requireAdmin, hbear, verifyAdmin]

/-- C8 witness: the concrete verifier accepts `tok` presented as a query
parameter on the lenient guard and rejects the same request on the
strict guard. -/
theorem C8_witness :
    requireAdminAllowQuery sampleVerifier
      { authHeader := "", queryToken := some "tok" } = .ok samplePayload ∧
    requireAdmin sampleVerifier
      { authHeader := "", queryToken := some "tok" } = .unauthorized :=
  C8_query_token_lenient_only sampleVerifier "tok" samplePayload
    (by decide) (by decide) (by decide)

/-- C10: when the Authorization header yields a Bearer token, the lenient
guard ignores the `token` query parameter entirely: with an invalid
Bearer token in the header and a valid token in the query parameter, the
request is rejected with 401, exactly as by the strict guard. -/
theorem C10_header_token_shadows_query (jv : String → Option Payload)
    (hdr t : String) (pl : Payload)
    (hbear : extractBearer { authHeader := hdr, queryToken := some t } ≠ "")
    (hbad : verifyAdmin jv
      (extractBearer { authHeader := hdr, queryToken := some t }) = none)
    (_hvalid : verifyAdmin jv t = some pl) :
    requireAdminAllowQuery jv { authHeader := hdr, queryToken := some t } =
      .unauthorized ∧
    requireAdminAllowQuery jv { authHeader := hdr, queryToken := some t } =
      requireAdmin jv { authHeader := hdr, queryToken := some t } := by
  constructor
  · simp [requireAdminAllowQuery, hbear, hbad]
  · simp [requireAdminAllowQuery, requireAdmin, hbear, hbad]

/-- C10 witness: header `Bearer bad` (which the verifier rejects)
together with the valid query token `tok` is answered 401 by the lenient
guard. -/
theorem C10_witness :
    requireAdminAllowQuery sampleVerifier
      { authHeader := "Bearer bad", queryToken := some "tok" } =
      .unauthorized ∧
    requireAdminAllowQuery sampleVerifier
      { authHeader := "Bearer bad", queryToken := some "tok" } =
      requireAdmin sampleVerifier
        { authHeader := "Bearer bad", queryToken := some "tok" } :=
  C10_header_token_shadows_query sampleVerifier "Bearer bad" "tok"
    samplePayload (by decide) (by decide) (by decide)

/-- Helper: membership in `insertDesc`. -/
theorem mem_insertDesc (a r : Quote) (l : List Quote) :
    a ∈ insertDesc r l ↔ a = r ∨ a ∈ l := by
  induction l with
  | nil => simp [insertDesc]
  | cons x xs ih =>
      by_cases h : x.created_at ≤ r.created_at
      · simp [insertDesc, h]
      · simp [insertDesc, h, ih]
        tauto

/-- Helper: sorting newest-first preserves membership. -/
theorem mem_sortDesc (a : Quote) (l : List Quote) :
    a ∈ sortDesc l ↔ a ∈ l := by
  induction l with
  | nil => simp [sortDesc]
  | cons x xs ih =>
      have hstep : sortDesc (x :: xs) = insertDesc x (sortDesc xs) := rfl
      rw [hstep, mem_insertDesc]
      simp [ih]

/-- Helper: every row returned by the list endpoint is a table row
satisfying the `WHERE` predicate. -/
theorem mem_listSelect (db : List Quote) (qs qq ql qo : Option String)
    (r : Quote) (h : r ∈ listSelect db qs qq ql qo) :
    r ∈ db ∧
    listPred (statusFilterOf qs) (lowercase (jsTrim (qq.getD ""))) r =
      true := by
  simp only [listSelect] at h
  have h1 := (mem_sortDesc r _).mp
    (List.mem_of_mem_drop (List.mem_of_mem_take h))
  exact ⟨(List.mem_filter.mp h1).1, (List.mem_filter.mp h1).2⟩

/-- C9 counterexample: the free-text query is NOT a substring match. The
query `_` is a SQL LIKE wildcard once interpolated into the `%…%`
pattern: the sample row (name `n`, e-mail `e`, no notes) is returned for
query `_` although `_` is not a substring of any of the three lowercased
columns. -/
theorem C9_counterexample :
    listSelect [sampleQuote] none (some "_") none none = [sampleQuote] ∧
    ¬ List.IsInfix (lowercase (jsTrim "_")).data
      (lowercase sampleQuote.name).data ∧
    ¬ List.IsInfix (lowercase (jsTrim "_")).data
      (lowercase sampleQuote.email).data ∧
    ¬ List.IsInfix (lowercase (jsTrim "_")).data
      (lowercase (sampleQuote.notes.getD "")).data := by
  refine ⟨by decide, by decide, by decide, by decide⟩

/-- C9 amended: for every list call, (a) a status filter outside the
six-value enumeration is ignored — the call behaves exactly as if
unfiltered, it is not rejected; (b) with a legal status filter only rows
whose status equals the filter are returned; (c) with a free-text query
only rows where the trimmed lowercased query — interpreted as a SQL LIKE
pattern (`_` matching any single character, `%` any sequence, backslash
escaping), not as a literal substring — matches the lowercased name,
e-mail, or notes (each independently) are returned. -/
theorem C9_amended_list_filters (db : List Quote) (ql qo : Option String) :
    (∀ s, s ∉ allowedStatuses → ∀ qq,
      listSelect db (some s) qq ql qo = listSelect db none qq ql qo) ∧
    (∀ s, s ∈ allowedStatuses → ∀ qq r,
      r ∈ listSelect db (some s) qq ql qo → r.status = s) ∧
    (∀ qs qq r, r ∈ listSelect db qs (some qq) ql qo →
      (lowercase (jsTrim qq)).data ≠ [] →
      (colMatches (lowercase (jsTrim qq)) r.name = true ∨
       colMatches (lowercase (jsTrim qq)) r.email = true ∨
       colMatches (lowercase (jsTrim qq)) (r.notes.getD "") = true)) := by
  refine ⟨?_, ?_, ?_⟩
  · intro s hs qq
    simp [listSelect, statusFilterOf, hs]
  · intro s hs qq r hr
    have h := (mem_listSelect db (some s) qq ql qo r hr).2
    have hsf : statusFilterOf (some s) = some s := by
      simp [statusFilterOf, hs]
    rw [hsf] at h
    simp only [listPred] at h
    have h1 := (Bool.and_eq_true _ _).mp h
    exact of_decide_eq_true h1.1
  · intro qs qq r hr hne
    have h := (mem_listSelect db qs (some qq) ql qo r hr).2
    simp only [listPred] at h
    have h2 := ((Bool.and_eq_true _ _).mp h).2
    have hie : (lowercase (jsTrim qq)).data.isEmpty = false := by
      simpa [List.isEmpty_iff] using hne
    simp only [Option.getD_some] at h2
    rw [hie] at h2
    simp only [Bool.false_or, Bool.or_eq_true] at h2
    tauto

/-- C9 amended witness: on the one-row table, the illegal filter `bogus`
behaves as no filter; the row returned under the legal filter `pending`
has that status; and the row returned for query `n` LIKE-matches one of
its columns. -/
theorem C9_witness :
    listSelect [sampleQuote] (some "bogus") (some "x") none none =
      listSelect [sampleQuote] none (some "x") none none ∧
    sampleQuote.status = "pending" ∧
    (colMatches (lowercase (jsTrim "n")) sampleQuote.name = true ∨
     colMatches (lowercase (jsTrim "n")) sampleQuote.email = true ∨
     colMatches (lowercase (jsTrim "n")) (sampleQuote.notes.getD "") =
       true) :=
  ⟨(C9_amended_list_filters [sampleQuote] none none).1 "bogus" (by decide)
     (some "x"),
   (C9_amended_list_filters [sampleQuote] none none).2.1 "pending"
     (by decide) none sampleQuote (by decide),
   (C9_amended_list_filters [sampleQuote] none none).2.2 none "n"
     sampleQuote (by decide) (by decide)⟩
